import Mathlib

/-!
Verification of `examples/example_qp/run_system.py`.

A shallow embedding of the closed-loop comparison harness of the repository
`xkhainguyen/rayenpp` (file `src/examples/example_qp/run_system.py`).

Modelling decisions, all taken from the source:

* Torch scalars are modelled as exact rationals (`ℚ`); the literal `1e-2`
  becomes `1/100` (the spec states its arithmetic claims over exact reals).
* The two `DoubleIntegrator` instances in `main` are built from the *same*
  tensor objects `x0` and `v0`, and the in-place `+=` of `dynamics` mutates
  those tensors.  Tensors that are mutated in place are therefore modelled
  as cells of a store (`Store := List ℚ`), and a `DoubleIntegrator` holds
  *references* (indices) to its position and velocity cells, exactly as the
  Python objects hold references to the tensors they were constructed with.
  The per-instance fields `_dt` and `_t` are Python floats (immutable
  values), so they live inside the instance itself.
* The two safety filters (the `CbfQpProblem` solver behind `opt_solve`, and
  the trained network behind `nn_infer`) are external collaborators; the
  harness-level development takes them as opaque functions from
  `(position, velocity, nominal)` to a scalar control.
* The matplotlib axes object `ax` accumulates one scatter collection per
  `ax.scatter` call; `ax.collections[k].remove()` deletes the collection at
  index `k`.  `collections` in the harness state mirrors `ax.collections`;
  the ghost fields `appendedOpt`/`appendedNn` additionally record every
  scatter call ever made, and the ghost field `ctxs` records the
  `(x, v, u_nom)` argument triple handed to `opt_solve` at each step.
-/

namespace RunSystem

/-- A store of mutable tensor cells; index `i` holds the current contents of
tensor `i`.  `main` allocates exactly two mutated tensors: `x0` (cell 0) and
`v0` (cell 1). -/
abbrev Store := List ℚ

/-- The `DoubleIntegrator` class of `run_system.py`.  `xRef`/`vRef` are the
references the constructor stores to the tensors it was handed (`self._x`,
`self._v`); `dt` and `t` are the per-instance floats `self._dt`, `self._t`. -/
structure DoubleIntegrator where
  xRef : ℕ
  vRef : ℕ
  dt : ℚ
  t : ℚ
deriving DecidableEq, Repr

/-- Method `DoubleIntegrator.dynamics(self, u)`:
`if u is not None: self._v += u*self._dt`; `self._x += self._v*self._dt`;
`self._t += self._dt`.  The `+=` on tensors is in place, so the velocity and
position cells of the store are updated; the new instance carries the
advanced clock.  The Python method returns the tensors `self._x, self._v`,
i.e. the references `xRef`, `vRef`, which callers dereference later. -/
def DoubleIntegrator.dynamics (s : DoubleIntegrator) (σ : Store) (u : Option ℚ) :
    DoubleIntegrator × Store :=
  let σ1 := match u with
    | some uu => σ.set s.vRef (σ.getD s.vRef 0 + uu * s.dt)
    | none => σ
  let σ2 := σ1.set s.xRef (σ1.getD s.xRef 0 + σ1.getD s.vRef 0 * s.dt)
  ({ s with t := s.t + s.dt }, σ2)

/-- Runs `n` successive `dynamics` calls on one instance, the call at step `k`
receiving control `us k`. -/
def advanceSeq (s : DoubleIntegrator) (σ : Store) (us : ℕ → Option ℚ) :
    ℕ → DoubleIntegrator × Store
  | 0 => (s, σ)
  | n + 1 =>
    let p := advanceSeq s σ us n
    p.1.dynamics p.2 (us n)

/-- Tag distinguishing the two scatter series of the harness: `opt` is the
blue series fed by `opt_solve`, `nn` the red series fed by `nn_infer`. -/
inductive Plant
  | opt
  | nn
deriving DecidableEq, Repr

/-- The mutable state of the loop body of `main`: the tensor store, the two
`DoubleIntegrator` instances, the two lagged filtered controls, the live
`ax.collections` list, and the ghost lists `appendedOpt`/`appendedNn`
(every blue resp. red scatter call ever made, in order) and `ctxs` (the
`(x, v, u_nom)` triple passed to `opt_solve` at each iteration). -/
structure HarnessState where
  store : Store
  system : DoubleIntegrator
  system_n : DoubleIntegrator
  u_filtered : Option ℚ
  un_filtered : Option ℚ
  collections : List (Plant × ℚ × ℚ)
  appendedOpt : List (ℚ × ℚ)
  appendedNn : List (ℚ × ℚ)
  ctxs : List (ℚ × ℚ × ℚ)
deriving DecidableEq, Repr

/-- One iteration `i` of the `for i in range(150)` loop of `main`:
advance `system` with the lagged `u_filtered`, advance `system_n` with the
lagged `un_filtered`, dereference the returned tensors, compute the nominal
control `u_nom i`, run both filters on the current values, scatter one blue
and one red point, and for `i > 0` remove `ax.collections[0]` and then
`ax.collections[1]`. -/
def harnessStep (nnF optF : ℚ → ℚ → ℚ → ℚ) (uNom : ℕ → ℚ) (i : ℕ)
    (st : HarnessState) : HarnessState :=
  let q1 := st.system.dynamics st.store st.u_filtered
  let q2 := st.system_n.dynamics q1.2 st.un_filtered
  let σ2 := q2.2
  let x := σ2.getD q1.1.xRef 0
  let v := σ2.getD q1.1.vRef 0
  let xn := σ2.getD q2.1.xRef 0
  let vn := σ2.getD q2.1.vRef 0
  let u := uNom i
  let unf := nnF xn vn u
  let uf := optF x v u
  let colls0 := st.collections ++ [(Plant.opt, x, v), (Plant.nn, xn, vn)]
  let colls := if 0 < i then (colls0.eraseIdx 0).eraseIdx 1 else colls0
  { store := σ2
    system := q1.1
    system_n := q2.1
    u_filtered := some uf
    un_filtered := some unf
    collections := colls
    appendedOpt := st.appendedOpt ++ [(x, v)]
    appendedNn := st.appendedNn ++ [(xn, vn)]
    ctxs := st.ctxs ++ [(x, v, u)] }

/-- The state of `main` just before the loop: `x0 = torch.Tensor([[[0.8]]])`
and `v0 = torch.Tensor([[[0.3]]])` are allocated once (cells 0 and 1) and the
*same* two tensors are handed to both `DoubleIntegrator` constructors, so
both instances hold the references 0 and 1; `dt = 1e-2` is `1/100` exactly;
`u_filtered = None`, `un_filtered = None`. -/
def harnessInit (x0 v0 : ℚ) : HarnessState :=
  { store := [x0, v0]
    system := { xRef := 0, vRef := 1, dt := 1/100, t := 0 }
    system_n := { xRef := 0, vRef := 1, dt := 1/100, t := 0 }
    u_filtered := none
    un_filtered := none
    collections := []
    appendedOpt := []
    appendedNn := []
    ctxs := [] }

/-- The loop of `main` run for `n` iterations from the initial state. -/
def harnessRun (x0 v0 : ℚ) (nnF optF : ℚ → ℚ → ℚ → ℚ) (uNom : ℕ → ℚ) :
    ℕ → HarnessState
  | 0 => harnessInit x0 v0
  | n + 1 => harnessStep nnF optF uNom n (harnessRun x0 v0 nnF optF uNom n)

/-- C1: the plant's advance operation is semi-implicit Euler.  For a plant
constructed over its own fresh position/velocity tensors holding `p` and
`v`, `dynamics (some u)` yields velocity `v + u*dt` and position
`p + (v + u*dt)*dt` (the new velocity is used in the position update), and
`dynamics none` leaves the velocity at `v` and yields position `p + v*dt`;
the clock advances by `dt` in both cases. -/
theorem c1_semi_implicit_euler (p v dtv tv u : ℚ) :
    (((DoubleIntegrator.mk 0 1 dtv tv).dynamics [p, v] (some u)).2.getD 1 0
        = v + u * dtv) ∧
    (((DoubleIntegrator.mk 0 1 dtv tv).dynamics [p, v] (some u)).2.getD 0 0
        = p + (v + u * dtv) * dtv) ∧
    (((DoubleIntegrator.mk 0 1 dtv tv).dynamics [p, v] (some u)).1.t
        = tv + dtv) ∧
    (((DoubleIntegrator.mk 0 1 dtv tv).dynamics [p, v] none).2.getD 1 0 = v) ∧
    (((DoubleIntegrator.mk 0 1 dtv tv).dynamics [p, v] none).2.getD 0 0
        = p + v * dtv) ∧
    (((DoubleIntegrator.mk 0 1 dtv tv).dynamics [p, v] none).1.t = tv + dtv) :=
  ⟨rfl, rfl, rfl, rfl, rfl, rfl⟩

/-- C2: the two plant instances are NOT independent.  `main` passes the same
tensors `x0`, `v0` to both constructors and the `+=` of `dynamics` mutates
them in place, so advancing `system` once (with an absent control, from the
initial state `position = 0.8, velocity = 0.3`) changes the contents of
`system_n`'s position cell from `0.8` to `0.803`. -/
theorem c2_shared_tensor_aliasing :
    ((harnessInit (8/10) (3/10)).store.getD
        (harnessInit (8/10) (3/10)).system_n.xRef 0 = 8/10) ∧
    (((harnessInit (8/10) (3/10)).system.dynamics
        (harnessInit (8/10) (3/10)).store
        (harnessInit (8/10) (3/10)).u_filtered).2.getD
        (harnessInit (8/10) (3/10)).system_n.xRef 0 = 803/1000) ∧
    ((803/1000 : ℚ) ≠ 8/10) := by
  refine ⟨by norm_num [harnessInit], ?_, by norm_num⟩
  norm_num [harnessInit, DoubleIntegrator.dynamics]

/-- C3 counterexample: the problem context handed to the optimization filter
is NOT built from the pre-advance state.  From the initial state
`position = 0.8, velocity = 0.3`, after one loop iteration the recorded
`opt_solve` context is `(0.806, 0.3, u_nom 0)` — the position after both
advance calls of the iteration — while the pre-advance position is `0.8`. -/
theorem c3_counterexample :
    ((harnessInit (8/10) (3/10)).store.getD
        (harnessInit (8/10) (3/10)).system.xRef 0 = 8/10) ∧
    ((harnessRun (8/10) (3/10) (fun _ _ _ => 0) (fun _ _ _ => 0)
        (fun _ => 0) 1).ctxs = [(403/500, 3/10, 0)]) ∧
    ((403/500 : ℚ) ≠ 8/10) := by
  refine ⟨by norm_num [harnessInit], ?_, by norm_num⟩
  norm_num [harnessRun, harnessStep, harnessInit, DoubleIntegrator.dynamics]

/-- C3 amended: in iteration `i` the harness first advances `system` with
the filtered control computed in the previous iteration (absent on the very
first iteration) and then advances `system_n` with the previous network
control; only then does it read the current `(position, velocity)` — which,
because the two instances share their position/velocity tensors, is the
state after BOTH advance calls — and it builds the filter's problem context
from that post-advance state together with the nominal control for index
`i`, storing the newly filtered controls for the next iteration. -/
theorem c3_advance_then_read (x0 v0 : ℚ) (nnF optF : ℚ → ℚ → ℚ → ℚ)
    (uNom : ℕ → ℚ) (n : ℕ) :
    (harnessRun x0 v0 nnF optF uNom 0).u_filtered = none ∧
    (harnessRun x0 v0 nnF optF uNom 0).un_filtered = none ∧
    (let st := harnessRun x0 v0 nnF optF uNom n
     let q1 := st.system.dynamics st.store st.u_filtered
     let q2 := st.system_n.dynamics q1.2 st.un_filtered
     let x := q2.2.getD q1.1.xRef 0
     let v := q2.2.getD q1.1.vRef 0
     (harnessRun x0 v0 nnF optF uNom (n + 1)).system = q1.1 ∧
     (harnessRun x0 v0 nnF optF uNom (n + 1)).system_n = q2.1 ∧
     (harnessRun x0 v0 nnF optF uNom (n + 1)).store = q2.2 ∧
     (harnessRun x0 v0 nnF optF uNom (n + 1)).ctxs
        = st.ctxs ++ [(x, v, uNom n)] ∧
     (harnessRun x0 v0 nnF optF uNom (n + 1)).u_filtered
        = some (optF x v (uNom n)) ∧
     (harnessRun x0 v0 nnF optF uNom (n + 1)).un_filtered
        = some (nnF (q2.2.getD q2.1.xRef 0) (q2.2.getD q2.1.vRef 0)
            (uNom n))) :=
  ⟨rfl, rfl, rfl, rfl, rfl, rfl, rfl, rfl⟩

/-- C4: the rollout is deterministic — two runs with identical initial
state, identical step count and identical filter implementations produce
identical harness states, in particular identical record sequences. -/
theorem c4_determinism (x0 v0 y0 w0 : ℚ)
    (nnF optF nnG optG : ℚ → ℚ → ℚ → ℚ) (uNom vNom : ℕ → ℚ) (n m : ℕ)
    (hx : x0 = y0) (hv : v0 = w0) (hn : nnF = nnG) (ho : optF = optG)
    (hu : uNom = vNom) (hk : n = m) :
    harnessRun x0 v0 nnF optF uNom n = harnessRun y0 w0 nnG optG vNom m := by
  subst hx; subst hv; subst hn; subst ho; subst hu; subst hk; rfl

/-- C4 witness: the determinism theorem applied at the example scenario's
initial state for three steps. -/
theorem c4_determinism_witness :
    harnessRun (8/10) (3/10) (fun _ _ _ => 0) (fun _ _ _ => 0)
        (fun _ => 0) 3
      = harnessRun (8/10) (3/10) (fun _ _ _ => 0) (fun _ _ _ => 0)
        (fun _ => 0) 3 :=
  c4_determinism (8/10) (3/10) (8/10) (3/10)
    (fun _ _ _ => 0) (fun _ _ _ => 0) (fun _ _ _ => 0) (fun _ _ _ => 0)
    (fun _ => 0) (fun _ => 0) 3 3 rfl rfl rfl rfl rfl rfl

lemma dynamics_clock (s : DoubleIntegrator) (σ : Store) (u : Option ℚ) :
    (s.dynamics σ u).1.t = s.t + s.dt ∧ (s.dynamics σ u).1.dt = s.dt :=
  ⟨rfl, rfl⟩

lemma harnessRun_succ (x0 v0 : ℚ) (nnF optF : ℚ → ℚ → ℚ → ℚ)
    (uNom : ℕ → ℚ) (n : ℕ) :
    harnessRun x0 v0 nnF optF uNom (n + 1)
      = harnessStep nnF optF uNom n (harnessRun x0 v0 nnF optF uNom n) :=
  rfl

lemma harnessStep_system (nnF optF : ℚ → ℚ → ℚ → ℚ) (uNom : ℕ → ℚ) (i : ℕ)
    (st : HarnessState) :
    (harnessStep nnF optF uNom i st).system
      = (st.system.dynamics st.store st.u_filtered).1 :=
  rfl

lemma harnessStep_system_n (nnF optF : ℚ → ℚ → ℚ → ℚ) (uNom : ℕ → ℚ) (i : ℕ)
    (st : HarnessState) :
    (harnessStep nnF optF uNom i st).system_n
      = (st.system_n.dynamics
          (st.system.dynamics st.store st.u_filtered).2 st.un_filtered).1 :=
  rfl

lemma advanceSeq_clock (s : DoubleIntegrator) (σ : Store) (us : ℕ → Option ℚ) :
    ∀ n : ℕ, (advanceSeq s σ us n).1.t = s.t + n * s.dt ∧
      (advanceSeq s σ us n).1.dt = s.dt := by
  intro n
  induction n with
  | zero => simp [advanceSeq]
  | succ n ih =>
    obtain ⟨ih1, ih2⟩ := ih
    have hstep : advanceSeq s σ us (n + 1)
        = (advanceSeq s σ us n).1.dynamics (advanceSeq s σ us n).2 (us n) :=
      rfl
    constructor
    · rw [hstep, (dynamics_clock _ _ _).1, ih1, ih2]
      push_cast
      ring
    · rw [hstep, (dynamics_clock _ _ _).2, ih2]

lemma harnessRun_clock (x0 v0 : ℚ) (nnF optF : ℚ → ℚ → ℚ → ℚ)
    (uNom : ℕ → ℚ) : ∀ n : ℕ,
    (harnessRun x0 v0 nnF optF uNom n).system.t = n * (1/100) ∧
    (harnessRun x0 v0 nnF optF uNom n).system.dt = 1/100 ∧
    (harnessRun x0 v0 nnF optF uNom n).system_n.t = n * (1/100) ∧
    (harnessRun x0 v0 nnF optF uNom n).system_n.dt = 1/100 := by
  intro n
  induction n with
  | zero => simp [harnessRun, harnessInit]
  | succ n ih =>
    obtain ⟨ih1, ih2, ih3, ih4⟩ := ih
    refine ⟨?_, ?_, ?_, ?_⟩
    · rw [harnessRun_succ, harnessStep_system, (dynamics_clock _ _ _).1,
        ih1, ih2]
      push_cast
      ring
    · rw [harnessRun_succ, harnessStep_system, (dynamics_clock _ _ _).2, ih2]
    · rw [harnessRun_succ, harnessStep_system_n, (dynamics_clock _ _ _).1,
        ih3, ih4]
      push_cast
      ring
    · rw [harnessRun_succ, harnessStep_system_n, (dynamics_clock _ _ _).2,
        ih4]

/-- C7: `elapsedTime` grows by `timeStep` on every advance call whatever the
control: after `k` advance calls from clock `t` it equals `t + k*timeStep`;
in the example rollout (`timeStep = 1/100`) both instances show
`elapsedTime = n/100` after `n` iterations, strictly increasing in `n`, with
value `3/2` after the 150-step rollout. -/
theorem c7_elapsed_time (s : DoubleIntegrator) (σ : Store)
    (us : ℕ → Option ℚ) (k : ℕ) (x0 v0 : ℚ) (nnF optF : ℚ → ℚ → ℚ → ℚ)
    (uNom : ℕ → ℚ) (m n : ℕ) :
    (advanceSeq s σ us k).1.t = s.t + k * s.dt ∧
    (harnessRun x0 v0 nnF optF uNom n).system.t = n * (1/100) ∧
    (harnessRun x0 v0 nnF optF uNom n).system_n.t = n * (1/100) ∧
    (m < n → (harnessRun x0 v0 nnF optF uNom m).system.t
        < (harnessRun x0 v0 nnF optF uNom n).system.t) ∧
    (harnessRun x0 v0 nnF optF uNom 150).system.t = 3/2 := by
  refine ⟨(advanceSeq_clock s σ us k).1,
    (harnessRun_clock x0 v0 nnF optF uNom n).1,
    (harnessRun_clock x0 v0 nnF optF uNom n).2.2.1, ?_, ?_⟩
  · intro hmn
    rw [(harnessRun_clock x0 v0 nnF optF uNom m).1,
      (harnessRun_clock x0 v0 nnF optF uNom n).1]
    have : (m : ℚ) < n := by exact_mod_cast hmn
    linarith
  · rw [(harnessRun_clock x0 v0 nnF optF uNom 150).1]
    norm_num

/-- C7 witness: the elapsed-time theorem instantiated at the example
scenario, one step against zero steps. -/
theorem c7_elapsed_time_witness :
    (harnessRun (8/10) (3/10) (fun _ _ _ => 0) (fun _ _ _ => 0)
        (fun _ => 0) 0).system.t
      < (harnessRun (8/10) (3/10) (fun _ _ _ => 0) (fun _ _ _ => 0)
        (fun _ => 0) 1).system.t :=
  (c7_elapsed_time (DoubleIntegrator.mk 0 1 (1/100) 0) [] (fun _ => none) 0
    (8/10) (3/10) (fun _ _ _ => 0) (fun _ _ _ => 0) (fun _ => 0) 0
    1).2.2.2.1 (by decide)

/-- C8 counterexample: the record sequence is not append-only.  In the
2-step rollout from the example initial state, the first blue (optimization
plant) scatter record `(0.806, 0.3)` has been removed from `ax.collections`
by the end of the run, and only 2 of the 4 appended records remain. -/
theorem c8_counterexample :
    ((harnessRun (8/10) (3/10) (fun _ _ _ => 0) (fun _ _ _ => 0)
        (fun _ => 0) 2).appendedOpt.head? = some (403/500, 3/10)) ∧
    ((Plant.opt, (403/500 : ℚ), (3/10 : ℚ)) ∉
        (harnessRun (8/10) (3/10) (fun _ _ _ => 0) (fun _ _ _ => 0)
          (fun _ => 0) 2).collections) ∧
    ((harnessRun (8/10) (3/10) (fun _ _ _ => 0) (fun _ _ _ => 0)
        (fun _ => 0) 2).collections.length = 2) := by
  refine ⟨?_, ?_, ?_⟩
  · norm_num [harnessRun, harnessStep, harnessInit,
      DoubleIntegrator.dynamics, List.eraseIdx]
  · norm_num [harnessRun, harnessStep, harnessInit,
      DoubleIntegrator.dynamics, List.eraseIdx]
    decide
  · norm_num [harnessRun, harnessStep, harnessInit,
      DoubleIntegrator.dynamics, List.eraseIdx]

/-- C8 amended: each of the `n` iterations appends exactly one record per
plant instance (so `n` scatter records per plant over the run), but the
live collection is not append-only: at every iteration after the first the
harness removes `ax.collections[0]` and `ax.collections[1]`, so at the end
of any run with `n ≥ 1` iterations only 2 of the `2n` appended records
remain on the axes. -/
theorem c8_record_counts (x0 v0 : ℚ) (nnF optF : ℚ → ℚ → ℚ → ℚ)
    (uNom : ℕ → ℚ) (n : ℕ) :
    (harnessRun x0 v0 nnF optF uNom n).appendedOpt.length = n ∧
    (harnessRun x0 v0 nnF optF uNom n).appendedNn.length = n ∧
    (harnessRun x0 v0 nnF optF uNom n).collections.length
        = if n = 0 then 0 else 2 := by
  induction n with
  | zero => simp [harnessRun, harnessInit]
  | succ n ih =>
    obtain ⟨ih1, ih2, ih3⟩ := ih
    refine ⟨?_, ?_, ?_⟩
    · show ((harnessRun x0 v0 nnF optF uNom n).appendedOpt ++ _).length = _
      simp [ih1]
    · show ((harnessRun x0 v0 nnF optF uNom n).appendedNn ++ _).length = _
      simp [ih2]
    · cases n with
      | zero => simp [harnessRun, harnessStep, harnessInit]
      | succ m =>
        have h2 : (harnessRun x0 v0 nnF optF uNom (m + 1)).collections.length
            = 2 := by simpa using ih3
        obtain ⟨a, b, hab⟩ := List.length_eq_two.mp h2
        show (harnessStep nnF optF uNom (m + 1)
            (harnessRun x0 v0 nnF optF uNom (m + 1))).collections.length = _
        simp [harnessStep, hab, List.eraseIdx]

/-- Input `torch.cat((u_nom, xn, vn), dim=1)` of three `(1, 1, 1)` tensors
(line 140 of `run_system.py`): the entries along dimension 1, in order
nominal control, position, velocity. -/
def nnInferInput (u_nom xn vn : ℚ) : List ℚ := [u_nom, xn, vn]

/-- Function `nn_infer(model, xn, vn, u_nom)` (lines 139-143).  The trained network
is an external collaborator, taken as an opaque function from the input
entries to the output entries (`nelement()` is the length of that output).
The second component records whether `utils.printInBoldRed("NN failed")`
ran, which the short-circuit `and` triggers exactly when
`un_filtered.nelement() == 0`; the first component is the value returned to
the caller, which is the model output itself, unchanged. -/
def nn_infer (model : List ℚ → List ℚ) (xn vn u_nom : ℚ) : List ℚ × Bool :=
  let input_n := nnInferInput u_nom xn vn
  let un_filtered := model input_n
  (un_filtered, un_filtered.isEmpty)

/-- Context `torch.cat([u_nom, x, v], 1).squeeze(-1)` (line 147): the problem
context handed to the optimization filter — nominal control, position,
velocity. -/
def optCtx (u_nom x v : ℚ) : List ℚ := [u_nom, x, v]

/-- Modelled from the spec: `FilterResult.Optimized` (spec §3/§6), the
result type of the external `CbfQpProblem` optimization solver, whose
implementation (`CbfQpProblem.py`) is not under `src/`: a returned value
(the tensor `problem.Y`, given by its entries) together with a feasibility
flag (`feasible = false` signals no feasible point was found; the value may
then be a best-effort solution, possibly empty). -/
structure Optimized where
  value : List ℚ
  feasible : Bool

/-- Function `opt_solve(x, v, u_nom)` (lines 146-154): build the context, run the
solver pipeline (`updateObjective`, `updateConstraints`, `computeY`), take
`problem.Y` as the filtered value.  The second component records whether
`utils.printInBoldRed("Solver failed")` ran, which happens exactly when
`u_filtered.nelement() == 0`; the first component is the value returned for
propagation, which is the solver's value, unchanged.  The function is
total: no exception path exists. -/
def opt_solve (solveQp : List ℚ → Optimized) (x v u_nom : ℚ) :
    List ℚ × Bool :=
  let xc := optCtx u_nom x v
  let Y := (solveQp xc).value
  (Y, Y.isEmpty)

/-- C5: whenever the network returns an empty output, `nn_infer` flags the
step (the visible "NN failed" error) and still hands back exactly the model
output — never a substituted zero or prior value — and the flag is raised
for precisely the empty outputs. -/
theorem c5_empty_output_flagged (model : List ℚ → List ℚ)
    (xn vn u_nom : ℚ) :
    (nn_infer model xn vn u_nom).1 = model (nnInferInput u_nom xn vn) ∧
    ((nn_infer model xn vn u_nom).2 = true
      ↔ model (nnInferInput u_nom xn vn) = []) :=
  ⟨rfl, by simp [nn_infer]⟩

/-- C6: the optimization path is fail-soft — for every solver result
(whatever its feasibility flag, and even when its value is empty),
`opt_solve` returns the solver's value unchanged, and the visible
"Solver failed" warning is raised exactly when that value is empty; being a
total function, it never raises or halts the rollout. -/
theorem c6_failsoft (solveQp : List ℚ → Optimized) (x v u_nom : ℚ) :
    (opt_solve solveQp x v u_nom).1 = (solveQp (optCtx u_nom x v)).value ∧
    ((opt_solve solveQp x v u_nom).2 = true
      ↔ (solveQp (optCtx u_nom x v)).value = []) :=
  ⟨rfl, by simp [opt_solve]⟩

/-- Tensor-level advance: `dynamics` with the control kept as a tensor (its
list of entries), as the loop of `main` actually passes it.  The in-place
`self._v += u * self._dt` has to broadcast `u` into the one-element
velocity tensor, which succeeds exactly when `u` has one element; any other
`nelement()` — in particular the empty output of a failed filter — raises a
broadcast `RuntimeError`, modelled as `none`.  A present one-element
control and an absent control behave as `DoubleIntegrator.dynamics`. -/
def dynamicsTensor (s : DoubleIntegrator) (σ : Store) (u : Option (List ℚ)) :
    Option (DoubleIntegrator × Store) :=
  match u with
  | some us =>
    if us.length = 1 then some (s.dynamics σ (some (us.getD 0 0))) else none
  | none => some (s.dynamics σ none)

/-- Harness state at tensor level: as `HarnessState`, but the two lagged
filtered controls are kept as tensors (entry lists), and the ghost list
`nnFailedFlags` records, per completed iteration, whether the visible
"NN failed" error was printed. -/
structure HarnessStateT where
  store : Store
  system : DoubleIntegrator
  system_n : DoubleIntegrator
  u_filtered : Option (List ℚ)
  un_filtered : Option (List ℚ)
  nnFailedFlags : List Bool
deriving DecidableEq, Repr

/-- One iteration of the loop of `main` at tensor level: advance `system`
with the lagged optimization output and `system_n` with the lagged network
output (either advance raising the broadcast error aborts the run, giving
`none`), then read the shared state, run `nn_infer` on the model and the
optimization filter on the context, and store both tensor outputs for the
next iteration. -/
def harnessStepTensor (model : List ℚ → List ℚ)
    (optF : ℚ → ℚ → ℚ → List ℚ) (uNom : ℕ → ℚ) (i : ℕ)
    (st : HarnessStateT) : Option HarnessStateT :=
  match dynamicsTensor st.system st.store st.u_filtered with
  | none => none
  | some q1 =>
    match dynamicsTensor st.system_n q1.2 st.un_filtered with
    | none => none
    | some q2 =>
      let x := q2.2.getD q1.1.xRef 0
      let v := q2.2.getD q1.1.vRef 0
      let xn := q2.2.getD q2.1.xRef 0
      let vn := q2.2.getD q2.1.vRef 0
      let u := uNom i
      let nnRes := nn_infer model xn vn u
      let uf := optF x v u
      some { store := q2.2
             system := q1.1
             system_n := q2.1
             u_filtered := some uf
             un_filtered := some nnRes.1
             nnFailedFlags := st.nnFailedFlags ++ [nnRes.2] }

/-- Initial tensor-level harness state, as `harnessInit`. -/
def harnessInitTensor (x0 v0 : ℚ) : HarnessStateT :=
  { store := [x0, v0]
    system := { xRef := 0, vRef := 1, dt := 1/100, t := 0 }
    system_n := { xRef := 0, vRef := 1, dt := 1/100, t := 0 }
    u_filtered := none
    un_filtered := none
    nnFailedFlags := [] }

/-- Tensor-level loop of `main` for `n` iterations; `none` means an
uncaught `RuntimeError` halted the rollout in some earlier iteration. -/
def harnessRunTensor (x0 v0 : ℚ) (model : List ℚ → List ℚ)
    (optF : ℚ → ℚ → ℚ → List ℚ) (uNom : ℕ → ℚ) : ℕ → Option HarnessStateT
  | 0 => some (harnessInitTensor x0 v0)
  | n + 1 =>
    match harnessRunTensor x0 v0 model optF uNom n with
    | none => none
    | some st => harnessStepTensor model optF uNom n st

/-- C5: evaluation of the harness at the failing input.  With the example
initial state, a network returning an empty output at step 0 and a solver
returning a one-element value, the run after one iteration has printed the
visible "NN failed" error (flag `true`) and stored the empty output
unchanged (no zero or prior-value substitute) — but the next iteration's
`self._v += u * self._dt` cannot broadcast the empty tensor and raises, so
the two-iteration run halts (`none`) instead of continuing as the claim
and spec section 7 require. -/
theorem c5_empty_output_halts_run :
    ((harnessRunTensor (8/10) (3/10) (fun _ => []) (fun _ _ _ => [0])
        (fun _ => 0) 1).map (fun st => st.nnFailedFlags) = some [true]) ∧
    ((harnessRunTensor (8/10) (3/10) (fun _ => []) (fun _ _ _ => [0])
        (fun _ => 0) 1).map (fun st => st.un_filtered)
      = some (some [])) ∧
    (harnessRunTensor (8/10) (3/10) (fun _ => []) (fun _ _ _ => [0])
        (fun _ => 0) 2 = none) :=
  ⟨rfl, rfl, rfl⟩

/-- Slice taken in `CbfQpNet.forward`, line 243: `x[:, xo_dim : xo_dim + xc_dim]`, the
slice of the (squeezed) input handed to the rayen projection layer as its
constraint context.  From the dataset/config provider, `xo_dim = 1` and
`xc_dim = 2`. -/
def forwardCtxSlice (xo_dim xc_dim : ℕ) (x : List ℚ) : List ℚ :=
  (x.take (xo_dim + xc_dim)).drop xo_dim

/-- C10: for an input built as the concatenation
`(nominal, position, velocity)`, the projection layer's context is exactly
the `(position, velocity)` slice — the nominal control is excluded — while
the optimization filter's context contains all three entries. -/
theorem c10_context_slices (u p v : ℚ) :
    forwardCtxSlice 1 2 (nnInferInput u p v) = [p, v] ∧
    optCtx u p v = [u, p, v] :=
  ⟨rfl, rfl⟩

/-- Weight-initialization schemes seen in `CbfQpNet.__init__`, with torch's
semantics: `nn.init.kaiming_normal_` (default arguments) draws from a
normal of variance `2 / fan_in`; `nn.Linear`'s constructor default is
Kaiming-uniform with `a = sqrt 5`, variance `(1/3) / fan_in`. -/
inductive WeightInitScheme
  | kaimingNormal
  | kaimingUniformA5
deriving DecidableEq, Repr

/-- The variance of the scheme multiplied by `fan_in`: `2` for
`kaiming_normal_` (ReLU-family gain), `1/3` for the `nn.Linear` default. -/
def WeightInitScheme.varianceTimesFanIn : WeightInitScheme → ℚ
  | .kaimingNormal => 2
  | .kaimingUniformA5 => 1/3

/-- Bias-initialization schemes: `nn.Linear`'s constructor default is
uniform on `(-1/sqrt fan_in, 1/sqrt fan_in)`; `zero` is the all-zeros
initialization the design document prescribes. -/
inductive BiasInitScheme
  | uniformFanIn
  | zero
deriving DecidableEq, Repr

/-- One entry of the `layers` list of `CbfQpNet.__init__`, tagged with how
its parameters (if any) are initialized. -/
inductive Layer
  | linear (inFeatures outFeatures : ℕ) (weightInit : WeightInitScheme)
      (biasInit : BiasInitScheme)
  | relu
  | batchNorm1d (numFeatures : ℕ)
deriving DecidableEq, Repr

/-- Constructor `nn.Linear(inF, outF)` as called: default weight and bias
initialization. -/
def nnLinear (inF outF : ℕ) : Layer :=
  .linear inF outF .kaimingUniformA5 .uniformFanIn

/-- The init loop of `CbfQpNet.__init__` (lines 225-227):
`for layer in layers: if type(layer) == nn.Linear:
nn.init.kaiming_normal_(layer.weight)` — it re-initializes only the
weights of `Linear` layers and never touches a bias. -/
def kaimingReinit : Layer → Layer
  | .linear i o _ b => .linear i o .kaimingNormal b
  | l => l

/-- The `layers` list of `CbfQpNet.__init__` (lines 216-223) after the init
loop ran, with `layer_sizes = [x_dim, hidden, hidden, hidden]`:
`Linear(x_dim, hidden), ReLU, BatchNorm1d(hidden), Linear(hidden, hidden),
ReLU, Linear(hidden, hidden)`.  In the example configuration `x_dim = 3`
(nominal + position + velocity) and `hidden = 600`. -/
def cbfQpNetLayers (x_dim hidden : ℕ) : List Layer :=
  ([nnLinear x_dim hidden, .relu, .batchNorm1d hidden,
    nnLinear hidden hidden, .relu, nnLinear hidden hidden]).map kaimingReinit

/-- Predicate: `Layer.linear` entries match the given weight and bias schemes;
non-affine layers match vacuously. -/
def linearInitIs (w : WeightInitScheme) (b : BiasInitScheme) : Layer → Bool
  | .linear _ _ w1 b1 => decide (w1 = w) && decide (b1 = b)
  | _ => true

/-- C9 counterexample: in the network as constructed (`x_dim = 3`,
`hidden = 600`), it is NOT the case that every affine layer has
Kaiming-normal weights AND a zero bias — the init loop leaves the biases at
the `nn.Linear` default uniform initialization. -/
theorem c9_counterexample :
    ((cbfQpNetLayers 3 600).all
        (linearInitIs .kaimingNormal .zero)) = false := by
  decide

/-- C9 amended: at construction, every affine layer's weights are
re-initialized with the Kaiming/He normal scheme (variance `2 / fan_in`,
the ReLU-family gain), while every affine layer's bias keeps the
`nn.Linear` default uniform initialization — which is not the zero
initialization. -/
theorem c9_weights_kaiming_biases_default (x_dim hidden : ℕ) :
    ((cbfQpNetLayers x_dim hidden).all
        (linearInitIs .kaimingNormal .uniformFanIn)) = true ∧
    WeightInitScheme.kaimingNormal.varianceTimesFanIn = 2 ∧
    BiasInitScheme.uniformFanIn ≠ BiasInitScheme.zero :=
  ⟨rfl, rfl, by decide⟩

end RunSystem
